import Mathlib

/-!
Shallow embedding of the video face-frame cropping subsystem
(openwillis/measures/video/util/crop_utils.py) and proofs about its
specified properties.

Modelling conventions:
- Python ints are ℤ (bounding-box fields) or ℕ (image dimensions, indices).
- Python floats are ℚ; Python int(q) is truncation toward zero (pyInt).
- A numpy raster is a structure of (rows, cols, pixel function); pixels carry
  three channels of natural numbers (the code only copies or zeroes pixels,
  so the uint8 range never matters).
- Numpy basic slicing a[y0:y1, x0:x1] is modelled by pySliceIdx, which
  clamps non-negative indices to the axis length and wraps negative ones,
  exactly as Python slices do.
- cv2.resize pixel resampling (INTER_AREA) is abstracted as index scaling;
  no verified property depends on resized pixel values, only on dimensions.
- cv2.VideoCapture is a structure of (isOpened, fps, frame list); reading
  frames in the while loop becomes structural recursion over the list.
- A raised Python exception becomes Except.error with the exception class.
-/

namespace CropUtils

/-- Python int() applied to a rational: truncation toward zero. -/
def pyInt (q : ℚ) : ℤ := if q < 0 then ⌈q⌉ else ⌊q⌋

/-- Effective index of a Python slice bound a on an axis of length n:
negative bounds count from the end (clamped below at 0), non-negative
bounds are clamped above at n. -/
def pySliceIdx (n : ℕ) (a : ℤ) : ℕ :=
  if a < 0 then ((n : ℤ) + a).toNat else min a.toNat n

/-- One pixel: three 8-bit channels (values as ℕ; the code only copies or
zeroes them). -/
structure Pix where
  c0 : ℕ
  c1 : ℕ
  c2 : ℕ
deriving DecidableEq, Repr

/-- The all-zero (black) pixel. -/
def zeroPix : Pix := ⟨0, 0, 0⟩

/-- A raster image: rows (height), cols (width) and a pixel function.
Out-of-range reads are harmless junk, exactly like a total function. -/
structure Image where
  h : ℕ
  w : ℕ
  data : ℕ → ℕ → Pix

/-- Number of scalar entries of the raster, as numpy .size reports for a
(h, w, 3) array; the empty np.array([]) has size 0. -/
def Image.size (img : Image) : ℕ := img.h * img.w * 3

/-- The bb_dict of the source: bounding box with integer fields. -/
structure BoundingBox where
  bb_x : ℤ
  bb_y : ℤ
  bb_w : ℤ
  bb_h : ℤ
deriving DecidableEq, Repr

/-- crop_img: roi = img[y:y+h, x:x+w]. -/
def crop_img (img : Image) (bb : BoundingBox) : Image :=
  let r0 := pySliceIdx img.h bb.bb_y
  let r1 := pySliceIdx img.h (bb.bb_y + bb.bb_h)
  let c0 := pySliceIdx img.w bb.bb_x
  let c1 := pySliceIdx img.w (bb.bb_x + bb.bb_w)
  ⟨r1 - r0, c1 - c0, fun i j => img.data (r0 + i) (c0 + j)⟩

/-- calculate_padding: padding_x = int(w * padding_percent),
padding_y = int(h * padding_percent), origin clamped at 0, size grown by
twice the padding. -/
def calculate_padding (bb : BoundingBox) (padding_percent : ℚ) : BoundingBox :=
  let padding_x := pyInt ((bb.bb_w : ℚ) * padding_percent)
  let padding_y := pyInt ((bb.bb_h : ℚ) * padding_percent)
  { bb_x := max 0 (bb.bb_x - padding_x)
    bb_y := max 0 (bb.bb_y - padding_y)
    bb_w := bb.bb_w + 2 * padding_x
    bb_h := bb.bb_h + 2 * padding_y }

/-- resize_to_fit: pick new dimensions preserving the aspect ratio so the
image fits in frame_size = (frame_w, frame_h); cv2.resize resampling is
abstracted as index scaling (dimensions are what the proofs use). -/
def resize_to_fit (img : Image) (frame_size : ℕ × ℕ) : Image :=
  let aspect : ℚ := (img.w : ℚ) / (img.h : ℚ)
  let frameAspect : ℚ := (frame_size.1 : ℚ) / (frame_size.2 : ℚ)
  let newDims : ℕ × ℕ :=
    if frameAspect < aspect then
      (frame_size.1, (pyInt ((frame_size.1 : ℚ) / aspect)).toNat)
    else
      ((pyInt ((frame_size.2 : ℚ) * aspect)).toNat, frame_size.2)
  ⟨newDims.2, newDims.1,
    fun i j => img.data (i * img.h / newDims.2) (j * img.w / newDims.1)⟩

/-- center_in_frame: resize only when the image exceeds the frame in some
dimension, then place it on a canvas of shape (frame_h, frame_w, 3) filled
with background_color at integer offsets ((frame_w - w)//2, (frame_h - h)//2).
Offsets are taken in ℕ; whenever the placed image fits in the frame (which
resize_to_fit guarantees for positive frame dimensions) this equals the
Python computation. -/
def center_in_frame (cropped_img : Image) (frame_size : ℕ × ℕ)
    (background_color : Pix) : Image :=
  let img := if frame_size.1 < cropped_img.w ∨ frame_size.2 < cropped_img.h
    then resize_to_fit cropped_img frame_size else cropped_img
  let x_offset := (frame_size.1 - img.w) / 2
  let y_offset := (frame_size.2 - img.h) / 2
  ⟨frame_size.2, frame_size.1,
    fun i j =>
      if y_offset ≤ i ∧ i < y_offset + img.h ∧
         x_offset ≤ j ∧ j < x_offset + img.w
      then img.data (i - y_offset) (j - x_offset)
      else background_color⟩

/-- crop_with_padding_and_center: pad the box, crop, center in the frame. -/
def crop_with_padding_and_center (img : Image) (bb : BoundingBox)
    (padding_percent : ℚ) (frame_size : ℕ × ℕ) (background_color : Pix) :
    Image :=
  let padded_bb := calculate_padding bb padding_percent
  let padded_crop := crop_img img padded_bb
  center_in_frame padded_crop frame_size background_color

/-- blacken_outside_bounding_box: mask = np.zeros_like(frame);
mask[y:y+h, x:x+w] = frame[y:y+h, x:x+w]. -/
def blacken_outside_bounding_box (frame : Image) (bb : BoundingBox) : Image :=
  let r0 := pySliceIdx frame.h bb.bb_y
  let r1 := pySliceIdx frame.h (bb.bb_y + bb.bb_h)
  let c0 := pySliceIdx frame.w bb.bb_x
  let c1 := pySliceIdx frame.w (bb.bb_x + bb.bb_w)
  ⟨frame.h, frame.w,
    fun i j =>
      if r0 ≤ i ∧ i < r1 ∧ c0 ≤ j ∧ j < c1
      then frame.data i j
      else zeroPix⟩

/-- create_cropped_frame: darken chooses masking; otherwise crop with the
default 10 percent padding and center on a black canvas of default_size. -/
def create_cropped_frame (frame : Image) (frame_dict : BoundingBox)
    (darken : Bool) (default_size : ℕ × ℕ) : Image :=
  if darken then blacken_outside_bounding_box frame frame_dict
  else crop_with_padding_and_center frame frame_dict (1 / 10) default_size
    zeroPix

/-- A frame_dict entry of the detections list: the empty dict (no face) is
none, a bounding-box dict is some. -/
def DetectionEntry := Option BoundingBox

/-- create_face_frame: with a detection, delegate to create_cropped_frame;
with an empty detection and keep_original_timing, emit an all-zero frame
(np.zeros_like(frame) when darken, np.zeros(default_size + (3,)) otherwise);
with an empty detection and no timing preservation, emit np.array([]). -/
def create_face_frame (frame_dict : DetectionEntry) (frame : Image)
    (default_size : ℕ × ℕ) (keep_original_timing darken : Bool) : Image :=
  match frame_dict with
  | Option.some bb => create_cropped_frame frame bb darken default_size
  | Option.none =>
    if keep_original_timing then
      if darken then ⟨frame.h, frame.w, fun _ _ => zeroPix⟩
      else ⟨default_size.1, default_size.2, fun _ _ => zeroPix⟩
    else ⟨0, 0, fun _ _ => zeroPix⟩

/-- Python exception classes raised by the embedded code. -/
inductive PyError where
  | valueError
  | ioError
deriving DecidableEq, Repr

/-- cv2.VideoCapture: whether the source opened, its fps metadata, and the
frames cap.read() yields in order. -/
structure VideoCapture where
  isOpened : Bool
  fps : ℚ
  frames : List Image

/-- The while loop of create_cropped_video: read one frame (stop at end of
stream), stop when frame_index reaches len(detections), build the face
frame, and append it when its size is nonzero. Walking the detections list
head-first is the frame_index counter. -/
def ccv_loop (frames : List Image) (detections : List DetectionEntry)
    (darken keep_original_timing : Bool) (default_size : ℕ × ℕ) :
    List Image :=
  match frames, detections with
  | [], _ => []
  | _ :: _, [] => []
  | f :: fs, d :: ds =>
    let face_frame := create_face_frame d f default_size
      keep_original_timing darken
    (if face_frame.size ≠ 0 then [face_frame] else []) ++
      ccv_loop fs ds darken keep_original_timing default_size

/-- create_cropped_video: raise ValueError when the capture is not opened,
otherwise run the loop, release the capture, and return out_frames (the
fps metadata is never queried). -/
def create_cropped_video (cap : VideoCapture)
    (detections : List DetectionEntry) (darken keep_original_timing : Bool)
    (default_size_for_cropped : ℕ × ℕ) : Except PyError (List Image) :=
  if cap.isOpened then
    Except.ok (ccv_loop cap.frames detections darken keep_original_timing
      default_size_for_cropped)
  else Except.error PyError.valueError

/-- Python int() agrees with the floor on non-negative rationals. -/
lemma pyInt_of_nonneg {q : ℚ} (hq : 0 ≤ q) : pyInt q = ⌊q⌋ :=
  if_neg (not_lt.mpr hq)

/-- A non-negative slice bound clamps to min with the axis length. -/
lemma pySliceIdx_of_nonneg {n : ℕ} {a : ℤ} (ha : 0 ≤ a) :
    pySliceIdx n a = min a.toNat n :=
  if_neg (not_lt.mpr ha)

/-- Claim C3: for a bounding box with non-negative fields and padding
percentage p ≥ 0, calculate_padding clamps the origin at zero after
subtracting floor(w p) and floor(h p) and grows each size by twice its
floored padding; the resulting origin coordinates are non-negative. -/
theorem calculate_padding_floor_spec (bb : BoundingBox) (p : ℚ)
    (hx : 0 ≤ bb.bb_x) (hy : 0 ≤ bb.bb_y) (hw : 0 ≤ bb.bb_w)
    (hh : 0 ≤ bb.bb_h) (hp : 0 ≤ p) :
    calculate_padding bb p =
      { bb_x := max 0 (bb.bb_x - ⌊(bb.bb_w : ℚ) * p⌋)
        bb_y := max 0 (bb.bb_y - ⌊(bb.bb_h : ℚ) * p⌋)
        bb_w := bb.bb_w + 2 * ⌊(bb.bb_w : ℚ) * p⌋
        bb_h := bb.bb_h + 2 * ⌊(bb.bb_h : ℚ) * p⌋ } ∧
    0 ≤ (calculate_padding bb p).bb_x ∧ 0 ≤ (calculate_padding bb p).bb_y := by
  have hwq : (0 : ℚ) ≤ (bb.bb_w : ℚ) * p :=
    mul_nonneg (by exact_mod_cast hw) hp
  have hhq : (0 : ℚ) ≤ (bb.bb_h : ℚ) * p :=
    mul_nonneg (by exact_mod_cast hh) hp
  refine ⟨?_, ?_, ?_⟩ <;>
    simp [calculate_padding, pyInt_of_nonneg hwq, pyInt_of_nonneg hhq]

/-- Claim C3 witness: the fully evaluated statement at the box
(10, 10, 100, 50) with p = 1/10. -/
theorem calculate_padding_floor_spec_witness :
    calculate_padding ⟨10, 10, 100, 50⟩ (1 / 10) =
      { bb_x := max 0 (10 - ⌊(100 : ℚ) * (1 / 10)⌋)
        bb_y := max 0 (10 - ⌊(50 : ℚ) * (1 / 10)⌋)
        bb_w := 100 + 2 * ⌊(100 : ℚ) * (1 / 10)⌋
        bb_h := 50 + 2 * ⌊(50 : ℚ) * (1 / 10)⌋ } ∧
    0 ≤ (calculate_padding ⟨10, 10, 100, 50⟩ (1 / 10)).bb_x ∧
    0 ≤ (calculate_padding ⟨10, 10, 100, 50⟩ (1 / 10)).bb_y :=
  calculate_padding_floor_spec ⟨10, 10, 100, 50⟩ (1 / 10)
    (by norm_num) (by norm_num) (by norm_num) (by norm_num) (by norm_num)

/-- Claim C4 counterexample: the padded width does not grow by twice the
round-to-nearest padding: at w = 100, p = 3/200 the product is 3/2, whose
rounding is 2, while the code grows the width by 2 * int(3/2) = 2. -/
theorem calculate_padding_round_counterexample :
    ¬ ((calculate_padding ⟨0, 0, 100, 100⟩ (3 / 200)).bb_w =
        100 + 2 * round ((100 : ℚ) * (3 / 200))) := by
  norm_num [calculate_padding, pyInt, round_eq]

/-- Claim C4 amended: for non-negative sizes and padding percentage, the
padded width and height grow by exactly twice the floor (truncation) of
size times padding_percent, and the padded origin is non-negative. -/
theorem calculate_padding_growth (bb : BoundingBox) (p : ℚ)
    (hw : 0 ≤ bb.bb_w) (hh : 0 ≤ bb.bb_h) (hp : 0 ≤ p) :
    (calculate_padding bb p).bb_w = bb.bb_w + 2 * ⌊(bb.bb_w : ℚ) * p⌋ ∧
    (calculate_padding bb p).bb_h = bb.bb_h + 2 * ⌊(bb.bb_h : ℚ) * p⌋ ∧
    0 ≤ (calculate_padding bb p).bb_x ∧
    0 ≤ (calculate_padding bb p).bb_y := by
  have hwq : (0 : ℚ) ≤ (bb.bb_w : ℚ) * p :=
    mul_nonneg (by exact_mod_cast hw) hp
  have hhq : (0 : ℚ) ≤ (bb.bb_h : ℚ) * p :=
    mul_nonneg (by exact_mod_cast hh) hp
  refine ⟨?_, ?_, ?_, ?_⟩ <;>
    simp [calculate_padding, pyInt_of_nonneg hwq, pyInt_of_nonneg hhq]

/-- Claim C4 witness: the amended growth statement evaluated at the box
(5, 7, 100, 100) with p = 3/200. -/
theorem calculate_padding_growth_witness :
    (calculate_padding ⟨5, 7, 100, 100⟩ (3 / 200)).bb_w =
      100 + 2 * ⌊(100 : ℚ) * (3 / 200)⌋ ∧
    (calculate_padding ⟨5, 7, 100, 100⟩ (3 / 200)).bb_h =
      100 + 2 * ⌊(100 : ℚ) * (3 / 200)⌋ ∧
    0 ≤ (calculate_padding ⟨5, 7, 100, 100⟩ (3 / 200)).bb_x ∧
    0 ≤ (calculate_padding ⟨5, 7, 100, 100⟩ (3 / 200)).bb_y :=
  calculate_padding_growth ⟨5, 7, 100, 100⟩ (3 / 200)
    (by norm_num) (by norm_num) (by norm_num)

/-- Claim C5 counterexample: the box (10, 10, 100, 50) padded by 1/10 is
not (9, 9, 120, 60): the code yields origin (0, 5), not (9, 9). -/
theorem calculate_padding_example_counterexample :
    calculate_padding ⟨10, 10, 100, 50⟩ (1 / 10) ≠
      (⟨9, 9, 120, 60⟩ : BoundingBox) := by
  norm_num [calculate_padding, pyInt]

/-- Claim C5 amended: the box (10, 10, 100, 50) padded by 1/10 yields
(0, 5, 120, 60). -/
theorem calculate_padding_example :
    calculate_padding ⟨10, 10, 100, 50⟩ (1 / 10) =
      (⟨0, 5, 120, 60⟩ : BoundingBox) := by
  norm_num [calculate_padding, pyInt]

/-- A concrete one-frame capture that opens successfully. -/
def capOk : VideoCapture :=
  ⟨true, 30, [⟨4, 4, fun _ _ => zeroPix⟩]⟩

/-- A concrete capture that fails to open. -/
def capBad : VideoCapture := ⟨false, 30, []⟩

/-- Claim C1: on a successfully opened video source, create_cropped_video
returns only the list of output frames, not the pair of the frame rate and
the frames promised by its own documentation: at a concrete opened capture
with empty detections the whole result is Except.ok of the bare list, and
the fps metadata of the capture is never consulted. -/
theorem create_cropped_video_returns_bare_frames :
    create_cropped_video capOk [] true false (512, 512) =
      Except.ok ([] : List Image) ∧
    create_cropped_video { capOk with fps := 997 } [] true false (512, 512) =
      create_cropped_video capOk [] true false (512, 512) := by
  constructor <;> rfl

/-- Claim C2 counterexample: on a capture that fails to open the code
raises ValueError, not IOError. -/
theorem create_cropped_video_error_counterexample :
    create_cropped_video capBad [] true false (512, 512) ≠
      Except.error PyError.ioError ∧
    create_cropped_video capBad [] true false (512, 512) =
      Except.error PyError.valueError := by
  constructor
  · simp [create_cropped_video, capBad]
  · rfl

/-- Claim C2 amended: for every capture that cannot be opened,
create_cropped_video raises ValueError and produces no partial output (no
frame is read and no face frame is built). -/
theorem create_cropped_video_open_failure (cap : VideoCapture)
    (detections : List DetectionEntry) (darken keep_original_timing : Bool)
    (default_size : ℕ × ℕ) (hopen : cap.isOpened = false) :
    create_cropped_video cap detections darken keep_original_timing
      default_size = Except.error PyError.valueError := by
  simp [create_cropped_video, hopen]

/-- Claim C2 witness: the open-failure behavior at the concrete capture
capBad. -/
theorem create_cropped_video_open_failure_witness :
    create_cropped_video capBad [] false true (256, 128) =
      Except.error PyError.valueError :=
  create_cropped_video_open_failure capBad [] false true (256, 128) rfl

/-- Claim C6: for an image of positive height that exceeds a positive
target frame in either dimension, resize_to_fit picks new dimensions by
the aspect-ratio rule of the source (width-limited when w/h exceeds the
frame aspect, height-limited otherwise, the free dimension floored), and
neither output dimension exceeds the target. -/
theorem resize_to_fit_dims (img : Image) (fw fh : ℕ)
    (hh : 0 < img.h) (hfw : 0 < fw) (hfh : 0 < fh)
    (hex : fw < img.w ∨ fh < img.h) :
    (if (fw : ℚ) / (fh : ℚ) < (img.w : ℚ) / (img.h : ℚ) then
      (resize_to_fit img (fw, fh)).w = fw ∧
      (resize_to_fit img (fw, fh)).h =
        (⌊(fw : ℚ) / ((img.w : ℚ) / (img.h : ℚ))⌋).toNat
    else
      (resize_to_fit img (fw, fh)).h = fh ∧
      (resize_to_fit img (fw, fh)).w =
        (⌊(fh : ℚ) * ((img.w : ℚ) / (img.h : ℚ))⌋).toNat) ∧
    (resize_to_fit img (fw, fh)).w ≤ fw ∧
    (resize_to_fit img (fw, fh)).h ≤ fh := by
  have hhq : (0 : ℚ) < (img.h : ℚ) := by exact_mod_cast hh
  have hfwq : (0 : ℚ) < (fw : ℚ) := by exact_mod_cast hfw
  have hfhq : (0 : ℚ) < (fh : ℚ) := by exact_mod_cast hfh
  by_cases hcmp : (fw : ℚ) / (fh : ℚ) < (img.w : ℚ) / (img.h : ℚ)
  · -- width-limited branch
    have haspect : (0 : ℚ) < (img.w : ℚ) / (img.h : ℚ) :=
      lt_trans (div_pos hfwq hfhq) hcmp
    have hdiv_nonneg : (0 : ℚ) ≤ (fw : ℚ) / ((img.w : ℚ) / (img.h : ℚ)) :=
      div_nonneg hfwq.le haspect.le
    have hout : resize_to_fit img (fw, fh) =
        ⟨(⌊(fw : ℚ) / ((img.w : ℚ) / (img.h : ℚ))⌋).toNat, fw,
          fun i j =>
            img.data
              (i * img.h / (⌊(fw : ℚ) / ((img.w : ℚ) / (img.h : ℚ))⌋).toNat)
              (j * img.w / fw)⟩ := by
      simp only [resize_to_fit, if_pos hcmp, pyInt_of_nonneg hdiv_nonneg]
    have hlt : (fw : ℚ) / ((img.w : ℚ) / (img.h : ℚ)) < (fh : ℚ) := by
      rw [div_lt_iff₀ haspect]
      calc (fw : ℚ) = (fw : ℚ) / (fh : ℚ) * fh := by field_simp
        _ < (img.w : ℚ) / (img.h : ℚ) * fh := by
            exact mul_lt_mul_of_pos_right hcmp hfhq
        _ = (fh : ℚ) * ((img.w : ℚ) / (img.h : ℚ)) := by ring
    have hfloor : (⌊(fw : ℚ) / ((img.w : ℚ) / (img.h : ℚ))⌋).toNat ≤ fh := by
      rw [Int.toNat_le]
      exact_mod_cast (Int.floor_lt.mpr (by exact_mod_cast hlt)).le
    rw [if_pos hcmp, hout]
    exact ⟨⟨rfl, rfl⟩, le_refl fw, hfloor⟩
  · -- height-limited branch
    have haspect : (0 : ℚ) ≤ (img.w : ℚ) / (img.h : ℚ) :=
      div_nonneg (by positivity) hhq.le
    have hmul_nonneg : (0 : ℚ) ≤ (fh : ℚ) * ((img.w : ℚ) / (img.h : ℚ)) :=
      mul_nonneg hfhq.le haspect
    have hout : resize_to_fit img (fw, fh) =
        ⟨fh, (⌊(fh : ℚ) * ((img.w : ℚ) / (img.h : ℚ))⌋).toNat,
          fun i j =>
            img.data (i * img.h / fh)
              (j * img.w /
                (⌊(fh : ℚ) * ((img.w : ℚ) / (img.h : ℚ))⌋).toNat)⟩ := by
      simp only [resize_to_fit, if_neg hcmp, pyInt_of_nonneg hmul_nonneg]
    have hle : (fh : ℚ) * ((img.w : ℚ) / (img.h : ℚ)) ≤ (fw : ℚ) := by
      have hcmp2 : (img.w : ℚ) / (img.h : ℚ) ≤ (fw : ℚ) / (fh : ℚ) :=
        not_lt.mp hcmp
      calc (fh : ℚ) * ((img.w : ℚ) / (img.h : ℚ))
          ≤ (fh : ℚ) * ((fw : ℚ) / (fh : ℚ)) :=
            mul_le_mul_of_nonneg_left hcmp2 hfhq.le
        _ = (fw : ℚ) := by field_simp
    have hfloor : (⌊(fh : ℚ) * ((img.w : ℚ) / (img.h : ℚ))⌋).toNat ≤ fw := by
      rw [Int.toNat_le]
      calc ⌊(fh : ℚ) * ((img.w : ℚ) / (img.h : ℚ))⌋ ≤ ⌊(fw : ℚ)⌋ :=
            Int.floor_le_floor hle
        _ = (fw : ℤ) := by exact_mod_cast Int.floor_natCast fw
    rw [if_neg hcmp, hout]
    exact ⟨⟨rfl, rfl⟩, hfloor, le_refl fh⟩

/-- Claim C6 witness: a 1000 by 500 image fit into a 512 by 512 frame is
width-limited and resized to 512 by 256. -/
theorem resize_to_fit_dims_witness :
    (if (512 : ℚ) / (512 : ℚ) < (1000 : ℚ) / (500 : ℚ) then
      (resize_to_fit ⟨500, 1000, fun _ _ => zeroPix⟩ (512, 512)).w = 512 ∧
      (resize_to_fit ⟨500, 1000, fun _ _ => zeroPix⟩ (512, 512)).h =
        (⌊(512 : ℚ) / ((1000 : ℚ) / (500 : ℚ))⌋).toNat
    else
      (resize_to_fit ⟨500, 1000, fun _ _ => zeroPix⟩ (512, 512)).h = 512 ∧
      (resize_to_fit ⟨500, 1000, fun _ _ => zeroPix⟩ (512, 512)).w =
        (⌊(512 : ℚ) * ((1000 : ℚ) / (500 : ℚ))⌋).toNat) ∧
    (resize_to_fit ⟨500, 1000, fun _ _ => zeroPix⟩ (512, 512)).w ≤ 512 ∧
    (resize_to_fit ⟨500, 1000, fun _ _ => zeroPix⟩ (512, 512)).h ≤ 512 :=
  resize_to_fit_dims ⟨500, 1000, fun _ _ => zeroPix⟩ 512 512
    (by norm_num) (by norm_num) (by norm_num) (Or.inl (by norm_num))

/-- Claim C7: when the image already fits in the frame, center_in_frame
performs no resize: the output canvas has exactly the frame dimensions,
every pixel outside the centered region is the background color, and the
centered region holds the input pixels unchanged at offsets
((frame_w - w)//2, (frame_h - h)//2). -/
theorem center_in_frame_fits (img : Image) (fw fh : ℕ) (bg : Pix)
    (hw : img.w ≤ fw) (hh : img.h ≤ fh) (i j : ℕ) :
    (center_in_frame img (fw, fh) bg).h = fh ∧
    (center_in_frame img (fw, fh) bg).w = fw ∧
    (center_in_frame img (fw, fh) bg).data i j =
      (if (fh - img.h) / 2 ≤ i ∧ i < (fh - img.h) / 2 + img.h ∧
          (fw - img.w) / 2 ≤ j ∧ j < (fw - img.w) / 2 + img.w
       then img.data (i - (fh - img.h) / 2) (j - (fw - img.w) / 2)
       else bg) := by
  have hfit : ¬ (fw < img.w ∨ fh < img.h) := by omega
  refine ⟨rfl, rfl, ?_⟩
  simp only [center_in_frame, hfit, if_false]

/-- Claim C7 witness: a 2 by 2 image centered in a 4 by 4 frame keeps its
pixel content; evaluation at the in-region index (1, 1). -/
theorem center_in_frame_fits_witness :
    (center_in_frame ⟨2, 2, fun i j => ⟨i, j, 9⟩⟩ (4, 4) zeroPix).h = 4 ∧
    (center_in_frame ⟨2, 2, fun i j => ⟨i, j, 9⟩⟩ (4, 4) zeroPix).w = 4 ∧
    (center_in_frame ⟨2, 2, fun i j => ⟨i, j, 9⟩⟩ (4, 4) zeroPix).data 1 1 =
      (if (4 - 2) / 2 ≤ 1 ∧ 1 < (4 - 2) / 2 + 2 ∧
          (4 - 2) / 2 ≤ 1 ∧ 1 < (4 - 2) / 2 + 2
       then (⟨2, 2, fun i j => (⟨i, j, 9⟩ : Pix)⟩ : Image).data
              (1 - (4 - 2) / 2) (1 - (4 - 2) / 2)
       else zeroPix) :=
  center_in_frame_fits ⟨2, 2, fun i j => ⟨i, j, 9⟩⟩ 4 4 zeroPix
    (by norm_num) (by norm_num) 1 1

/-- Membership of an in-range row or column index in a clamped Python
slice with non-negative bounds agrees with plain interval membership. -/
lemma pySliceIdx_mem {n : ℕ} {a b : ℤ} (ha : 0 ≤ a) (hb : 0 ≤ b)
    {i : ℕ} (hi : i < n) :
    (pySliceIdx n a ≤ i ∧ i < pySliceIdx n b) ↔
      (a ≤ (i : ℤ) ∧ (i : ℤ) < b) := by
  rw [pySliceIdx_of_nonneg ha, pySliceIdx_of_nonneg hb]
  omega

/-- Claim C8 counterexample: with the bounding box (-5, 0, 3, 3) on a
3 by 10 frame of nonzero pixels, the pixel at row 0, column 5 lies outside
the rectangle [x, x+w) in mathematical terms, yet the output keeps the
source value there instead of zero, because the negative slice bound wraps
around to column 5. -/
theorem blacken_counterexample :
    ¬ ((-5 : ℤ) ≤ (5 : ℕ) ∧ ((5 : ℕ) : ℤ) < -5 + 3) ∧
    (blacken_outside_bounding_box ⟨3, 10, fun _ j => ⟨j + 1, 0, 0⟩⟩
        ⟨-5, 0, 3, 3⟩).data 0 5 ≠ zeroPix := by
  constructor
  · decide
  · decide

/-- Claim C8 amended: for bounding boxes with non-negative fields, the
output of blacken_outside_bounding_box has the dimensions of the input,
keeps the source pixels on the rectangle [x, x+w) by [y, y+h), and is
zero in all channels everywhere else. -/
theorem blacken_outside_bounding_box_spec (frame : Image) (bb : BoundingBox)
    (hx : 0 ≤ bb.bb_x) (hy : 0 ≤ bb.bb_y) (hw : 0 ≤ bb.bb_w)
    (hh : 0 ≤ bb.bb_h) (i j : ℕ) (hi : i < frame.h) (hj : j < frame.w) :
    (blacken_outside_bounding_box frame bb).h = frame.h ∧
    (blacken_outside_bounding_box frame bb).w = frame.w ∧
    (blacken_outside_bounding_box frame bb).data i j =
      (if bb.bb_y ≤ (i : ℤ) ∧ (i : ℤ) < bb.bb_y + bb.bb_h ∧
          bb.bb_x ≤ (j : ℤ) ∧ (j : ℤ) < bb.bb_x + bb.bb_w
       then frame.data i j else zeroPix) := by
  refine ⟨rfl, rfl, ?_⟩
  have hrows := pySliceIdx_mem (n := frame.h) hy (by omega : (0:ℤ) ≤ bb.bb_y + bb.bb_h) (i := i) hi
  have hcols := pySliceIdx_mem (n := frame.w) hx (by omega : (0:ℤ) ≤ bb.bb_x + bb.bb_w) (i := j) hj
  simp only [blacken_outside_bounding_box]
  refine if_congr ?_ rfl rfl
  constructor
  · rintro ⟨h1, h2, h3, h4⟩
    obtain ⟨hr1, hr2⟩ := hrows.mp ⟨h1, h2⟩
    obtain ⟨hc1, hc2⟩ := hcols.mp ⟨h3, h4⟩
    exact ⟨hr1, hr2, hc1, hc2⟩
  · rintro ⟨h1, h2, h3, h4⟩
    obtain ⟨hr1, hr2⟩ := hrows.mpr ⟨h1, h2⟩
    obtain ⟨hc1, hc2⟩ := hcols.mpr ⟨h3, h4⟩
    exact ⟨hr1, hr2, hc1, hc2⟩

/-- Claim C8 witness: the masking behavior on a concrete 2 by 3 frame with
the box (1, 0, 2, 1), evaluated at the in-box pixel (0, 1). -/
theorem blacken_outside_bounding_box_spec_witness :
    (blacken_outside_bounding_box ⟨2, 3, fun i j => ⟨i, j, 7⟩⟩
        ⟨1, 0, 2, 1⟩).h = 2 ∧
    (blacken_outside_bounding_box ⟨2, 3, fun i j => ⟨i, j, 7⟩⟩
        ⟨1, 0, 2, 1⟩).w = 3 ∧
    (blacken_outside_bounding_box ⟨2, 3, fun i j => ⟨i, j, 7⟩⟩
        ⟨1, 0, 2, 1⟩).data 0 1 =
      (if (0 : ℤ) ≤ ((0 : ℕ) : ℤ) ∧ ((0 : ℕ) : ℤ) < 0 + 1 ∧
          (1 : ℤ) ≤ ((1 : ℕ) : ℤ) ∧ ((1 : ℕ) : ℤ) < 1 + 2
       then (⟨2, 3, fun i j => (⟨i, j, 7⟩ : Pix)⟩ : Image).data 0 1
       else zeroPix) :=
  blacken_outside_bounding_box_spec ⟨2, 3, fun i j => ⟨i, j, 7⟩⟩
    ⟨1, 0, 2, 1⟩ (by norm_num) (by norm_num) (by norm_num) (by norm_num)
    0 1 (by norm_num) (by norm_num)

/-- The loop never produces more entries than there are detections. -/
lemma ccv_loop_length_le (darken kt : Bool) (ds : ℕ × ℕ) :
    ∀ (frames : List Image) (dets : List DetectionEntry),
      (ccv_loop frames dets darken kt ds).length ≤ dets.length := by
  intro frames
  induction frames with
  | nil => intro dets; simp [ccv_loop]
  | cons f fs ih =>
    intro dets
    cases dets with
    | nil => simp [ccv_loop]
    | cons d rest =>
      have := ih rest
      simp only [ccv_loop, List.length_append, List.length_cons]
      split <;> simp <;> omega

/-- The loop output is a sublist of the face frames of the zipped input,
hence comes from strictly increasing frame indices in input order. -/
lemma ccv_loop_sublist (darken kt : Bool) (ds : ℕ × ℕ) :
    ∀ (frames : List Image) (dets : List DetectionEntry),
      List.Sublist (ccv_loop frames dets darken kt ds)
        (List.zipWith (fun f d => create_face_frame d f ds kt darken)
          frames dets) := by
  intro frames
  induction frames with
  | nil => intro dets; simp [ccv_loop]
  | cons f fs ih =>
    intro dets
    cases dets with
    | nil => simp [ccv_loop]
    | cons d rest =>
      simp only [ccv_loop, List.zipWith_cons_cons]
      split
      · exact List.Sublist.cons₂ _ (ih rest)
      · simp only [List.nil_append]
        exact List.Sublist.cons _ (ih rest)

/-- The loop only ever looks at the first len(detections) frames. -/
lemma ccv_loop_take (darken kt : Bool) (ds : ℕ × ℕ) :
    ∀ (frames : List Image) (dets : List DetectionEntry),
      ccv_loop frames dets darken kt ds =
        ccv_loop (frames.take dets.length) dets darken kt ds := by
  intro frames
  induction frames with
  | nil => intro dets; simp
  | cons f fs ih =>
    intro dets
    cases dets with
    | nil => simp [ccv_loop]
    | cons d rest =>
      simp only [List.length_cons, List.take_succ_cons, ccv_loop]
      rw [ih rest]

/-- Claim C9: on an opened capture of N frames with a detection list of
length M < N, create_cropped_video succeeds with the loop output, which
has at most M entries, is computed from the first M frames only, and is a
sublist (order-preserving, strictly increasing frame indices) of the face
frames of those M frames zipped with their detections. -/
theorem create_cropped_video_truncation (cap : VideoCapture)
    (dets : List DetectionEntry) (darken kt : Bool) (ds : ℕ × ℕ)
    (hopen : cap.isOpened = true)
    (hlen : dets.length < cap.frames.length) :
    create_cropped_video cap dets darken kt ds =
      Except.ok (ccv_loop cap.frames dets darken kt ds) ∧
    (ccv_loop cap.frames dets darken kt ds).length ≤ dets.length ∧
    ccv_loop cap.frames dets darken kt ds =
      ccv_loop (cap.frames.take dets.length) dets darken kt ds ∧
    List.Sublist (ccv_loop cap.frames dets darken kt ds)
      (List.zipWith (fun f d => create_face_frame d f ds kt darken)
        (cap.frames.take dets.length) dets) := by
  refine ⟨by simp [create_cropped_video, hopen], ?_, ?_, ?_⟩
  · exact ccv_loop_length_le darken kt ds cap.frames dets
  · exact ccv_loop_take darken kt ds cap.frames dets
  · rw [ccv_loop_take darken kt ds cap.frames dets]
    exact ccv_loop_sublist darken kt ds (cap.frames.take dets.length) dets

/-- Claim C9 witness: a two-frame capture with a single empty detection
and keep_original_timing false yields the empty output. -/
theorem create_cropped_video_truncation_witness :
    create_cropped_video
        ⟨true, 24, [⟨2, 2, fun _ _ => zeroPix⟩, ⟨2, 2, fun _ _ => zeroPix⟩]⟩
        [Option.none] true false (512, 512) =
      Except.ok (ccv_loop
        [⟨2, 2, fun _ _ => zeroPix⟩, ⟨2, 2, fun _ _ => zeroPix⟩]
        [Option.none] true false (512, 512)) ∧
    (ccv_loop [⟨2, 2, fun _ _ => zeroPix⟩, ⟨2, 2, fun _ _ => zeroPix⟩]
        [Option.none] true false (512, 512)).length ≤
      ([Option.none] : List DetectionEntry).length ∧
    ccv_loop [⟨2, 2, fun _ _ => zeroPix⟩, ⟨2, 2, fun _ _ => zeroPix⟩]
        [Option.none] true false (512, 512) =
      ccv_loop (List.take ([Option.none] : List DetectionEntry).length
          [⟨2, 2, fun _ _ => zeroPix⟩, ⟨2, 2, fun _ _ => zeroPix⟩])
        [Option.none] true false (512, 512) ∧
    List.Sublist
      (ccv_loop [⟨2, 2, fun _ _ => zeroPix⟩, ⟨2, 2, fun _ _ => zeroPix⟩]
        [Option.none] true false (512, 512))
      (List.zipWith (fun f d => create_face_frame d f (512, 512) false true)
        (List.take ([Option.none] : List DetectionEntry).length
          [⟨2, 2, fun _ _ => zeroPix⟩, ⟨2, 2, fun _ _ => zeroPix⟩])
        [Option.none]) :=
  create_cropped_video_truncation
    ⟨true, 24, [⟨2, 2, fun _ _ => zeroPix⟩, ⟨2, 2, fun _ _ => zeroPix⟩]⟩
    [Option.none] true false (512, 512) rfl (by simp)

/-- Claim C10: with an empty detection, keep_original_timing true and
darken false, create_face_frame emits an all-zero placeholder of shape
(default_size.1, default_size.2, 3), while the composited frame of a
present detection has shape (default_size.2, default_size.1, 3); for a
non-square default_size both dimensions of the placeholder are therefore
transposed relative to the composited frames of the same output run. -/
theorem create_face_frame_placeholder_transposed (f f2 : Image)
    (bb : BoundingBox) (ds : ℕ × ℕ) (i j : ℕ) (hne : ds.1 ≠ ds.2) :
    (create_face_frame Option.none f ds true false).h = ds.1 ∧
    (create_face_frame Option.none f ds true false).w = ds.2 ∧
    (create_face_frame Option.none f ds true false).data i j = zeroPix ∧
    (create_face_frame (Option.some bb) f2 ds true false).h = ds.2 ∧
    (create_face_frame (Option.some bb) f2 ds true false).w = ds.1 ∧
    (create_face_frame Option.none f ds true false).h ≠
      (create_face_frame (Option.some bb) f2 ds true false).h ∧
    (create_face_frame Option.none f ds true false).w ≠
      (create_face_frame (Option.some bb) f2 ds true false).w := by
  refine ⟨rfl, rfl, rfl, rfl, rfl, ?_, ?_⟩
  · simpa [create_face_frame, create_cropped_frame,
      crop_with_padding_and_center, center_in_frame] using hne
  · simpa [create_face_frame, create_cropped_frame,
      crop_with_padding_and_center, center_in_frame] using Ne.symm hne

/-- Claim C10 witness: at default_size (512, 256) the placeholder is
512 rows by 256 columns while the composited frame is 256 rows by 512
columns. -/
theorem create_face_frame_placeholder_transposed_witness :
    (create_face_frame Option.none ⟨2, 2, fun _ _ => zeroPix⟩ (512, 256)
        true false).h = 512 ∧
    (create_face_frame Option.none ⟨2, 2, fun _ _ => zeroPix⟩ (512, 256)
        true false).w = 256 ∧
    (create_face_frame Option.none ⟨2, 2, fun _ _ => zeroPix⟩ (512, 256)
        true false).data 3 4 = zeroPix ∧
    (create_face_frame (Option.some ⟨0, 0, 2, 2⟩)
        ⟨2, 2, fun _ _ => zeroPix⟩ (512, 256) true false).h = 256 ∧
    (create_face_frame (Option.some ⟨0, 0, 2, 2⟩)
        ⟨2, 2, fun _ _ => zeroPix⟩ (512, 256) true false).w = 512 ∧
    (create_face_frame Option.none ⟨2, 2, fun _ _ => zeroPix⟩ (512, 256)
        true false).h ≠
      (create_face_frame (Option.some ⟨0, 0, 2, 2⟩)
        ⟨2, 2, fun _ _ => zeroPix⟩ (512, 256) true false).h ∧
    (create_face_frame Option.none ⟨2, 2, fun _ _ => zeroPix⟩ (512, 256)
        true false).w ≠
      (create_face_frame (Option.some ⟨0, 0, 2, 2⟩)
        ⟨2, 2, fun _ _ => zeroPix⟩ (512, 256) true false).w :=
  create_face_frame_placeholder_transposed ⟨2, 2, fun _ _ => zeroPix⟩
    ⟨2, 2, fun _ _ => zeroPix⟩ ⟨0, 0, 2, 2⟩ (512, 256) 3 4 (by norm_num)

end CropUtils
